import Mathlib

/-!
Shallow embedding of the instagram-automation pipeline
(src/main.py, src/description_generator.py, src/image_generator.py,
src/instagram_poster.py).

Strings are modelled as lists of characters (`Str`).  External effects
(filesystem, HTTP backends, random draws) are modelled as explicit
parameters: a filesystem is a predicate on paths, each backend call is an
`Except Unit` oracle, and `random.choice` is an index parameter reduced
modulo the candidate-list length.  Fallible Python code is modelled with
`Except`; an emitted-request trace records observable network activity.
-/

namespace InstaAuto

abbrev Str := List Char

/-- Python `" ".join` / list joining with a separator. -/
def joinSep (sep : Str) (parts : List Str) : Str :=
  List.intercalate sep parts

/-- `startsWith needle hay`: `hay` begins with `needle`. -/
def startsWith : Str → Str → Bool
  | [], _ => true
  | _ :: _, [] => false
  | a :: as, b :: bs => a == b && startsWith as bs

/-- Python `needle in hay` substring test. -/
def containsStr (needle : Str) : Str → Bool
  | [] => needle.isEmpty
  | c :: rest => startsWith needle (c :: rest) || containsStr needle rest

/-- Strip characters satisfying `p` from both ends (Python `str.strip` family). -/
def stripEnds (p : Char → Bool) (s : Str) : Str :=
  ((s.dropWhile p).reverse.dropWhile p).reverse

/-- Python `tag.strip('#')`: removes `'#'` from BOTH ends of the string. -/
def stripChar (c : Char) (s : Str) : Str :=
  stripEnds (fun x => x == c) s

/-- Python `str.strip()` with no argument: trim whitespace from both ends. -/
def stripWS (s : Str) : Str :=
  stripEnds Char.isWhitespace s

/-- Python `str.lower()` (ASCII case folding suffices for the embedded data). -/
def toLowerStr (s : Str) : Str :=
  s.map Char.toLower

/-- `DescriptionGenerator.add_hashtags` (description_generator.py lines 164-181):
`formatted_hashtags = ["#" + tag.strip('#') for tag in hashtags]`,
`hashtag_text = " ".join(formatted_hashtags)`,
returns `f"{description}\n\n{hashtag_text}"`. -/
def add_hashtags (description : Str) (hashtags : List Str) : Str :=
  let formatted_hashtags := hashtags.map (fun tag => '#' :: stripChar '#' tag)
  let hashtag_text := joinSep (" ".data) formatted_hashtags
  description ++ ("\n\n".data) ++ hashtag_text

/-- The caption that `InstagramPoster.post` builds (instagram_poster.py lines
53-58): `if hashtags:` (Python truthiness: `None` and `[]` both skip the
branch) join `"#" + tag.strip('#')` with spaces and append after a blank
line; otherwise the caption is used unchanged. -/
def postFullCaption (caption : Str) (hashtags : Option (List Str)) : Str :=
  match hashtags with
  | none => caption
  | some tags =>
    if tags.isEmpty then caption
    else
      let formatted_hashtags := joinSep (" ".data) (tags.map (fun tag => '#' :: stripChar '#' tag))
      caption ++ ("\n\n".data) ++ formatted_hashtags

/-- The normalization rule exactly as the specification words it: strip only
the LEADING run of `'#'` characters from each tag, re-prefix one `'#'`,
join with spaces, append after a blank line.  Kept for comparison with the
source's `add_hashtags`, which strips both ends. -/
def addHashtagsLeadingOnly (description : Str) (hashtags : List Str) : Str :=
  let formatted_hashtags := hashtags.map (fun tag => '#' :: tag.dropWhile (fun x => x == '#'))
  description ++ ("\n\n".data) ++ joinSep (" ".data) formatted_hashtags

lemma takeWhile_dropWhile_self (p : Char → Bool) (l : Str) :
    (l.dropWhile p).takeWhile p = [] := by
  induction l with
  | nil => rfl
  | cons x xs ih =>
    by_cases hx : p x = true
    · simpa [List.dropWhile_cons, hx] using ih
    · simp [List.dropWhile_cons, List.takeWhile_cons, hx]

lemma dropWhile_append_single (p : Char → Bool) (l : Str) (x : Char)
    (hx : p x = false) : (l ++ [x]).dropWhile p = l.dropWhile p ++ [x] := by
  induction l with
  | nil => simp [List.dropWhile_cons, hx]
  | cons y ys ih =>
    by_cases hy : p y = true
    · simpa [List.dropWhile_cons, hy] using ih
    · simp [List.dropWhile_cons, hy]

lemma stripEnds_takeWhile (p : Char → Bool) (s : Str) :
    (stripEnds p s).takeWhile p = [] := by
  unfold stripEnds
  rcases hd : s.dropWhile p with _ | ⟨x, xs⟩
  · simp
  · have hx : p x = false := by
      have := takeWhile_dropWhile_self p s
      rw [hd] at this
      by_contra hpx
      simp [List.takeWhile_cons, eq_true_of_ne_false hpx] at this
    rw [List.reverse_cons, dropWhile_append_single p xs.reverse x hx]
    simp [List.takeWhile_cons, hx]

/-- After stripping, re-prefixing one `'#'` leaves exactly one leading `'#'`. -/
lemma formatted_tag_one_hash (tag : Str) :
    (('#' :: stripChar '#' tag).takeWhile (fun x => x == '#')) = ['#'] := by
  simp [List.takeWhile_cons, stripChar, stripEnds_takeWhile]

/-- For a nonempty tag list, `post`'s inline merge and `add_hashtags` agree. -/
lemma merge_eq_of_ne_nil (caption : Str) (tags : List Str) (h : tags ≠ []) :
    postFullCaption caption (some tags) = add_hashtags caption tags := by
  simp [postFullCaption, add_hashtags, List.isEmpty_iff, h]

/-- `add_hashtags caption []` appends a blank-line separator and nothing else. -/
lemma add_hashtags_nil (caption : Str) :
    add_hashtags caption [] = caption ++ ("\n\n".data) := by
  simp [add_hashtags, joinSep, List.intercalate]

lemma append_two_ne_self (caption : Str) :
    caption ++ ("\n\n".data) ≠ caption := by
  intro h
  have := congrArg List.length h
  simp at this

/-- C4: the claim states that `add_hashtags` strips only LEADING `'#'`
characters from each tag; the source's `tag.strip('#')` also strips trailing
`'#'`, so on the tag `"a#"` the code yields `"#a"` while the claim's rule
yields `"#a#"`. -/
theorem add_hashtags_leading_only_counterexample :
    add_hashtags ("c".data) [("a#".data)]
      ≠ addHashtagsLeadingOnly ("c".data) [("a#".data)] := by
  decide

/-- C4 (amended): `add_hashtags` normalizes each tag by stripping any leading
AND trailing `'#'` characters and re-prefixing exactly one `'#'` (each
formatted tag has exactly one leading `'#'`), joins the formatted tags with
single spaces, and appends them after a blank-line separator; in particular
`add_hashtags caption ["#a", "b"]` is the caption followed by a blank line
and exactly `#a #b`. -/
theorem add_hashtags_normalizes_both_ends (caption : Str) (tags : List Str) :
    add_hashtags caption tags
        = caption ++ ("\n\n".data)
            ++ joinSep (" ".data) (tags.map (fun t => '#' :: stripChar '#' t))
      ∧ (∀ t : Str, (('#' :: stripChar '#' t).takeWhile (fun x => x == '#')) = ['#'])
      ∧ add_hashtags caption [("#a".data), ("b".data)]
          = caption ++ ("\n\n#a #b".data) := by
  refine ⟨rfl, formatted_tag_one_hash, ?_⟩
  show caption ++ ("\n\n".data) ++ _ = caption ++ ("\n\n#a #b".data)
  rw [List.append_assoc]
  congr 1

/-- C8: for every caption and every nonempty (truthy) supplied hashtag list,
the caption merge that `post` builds inline equals `add_hashtags` applied to
the same caption and list — the two independently implemented merge rules
agree. -/
theorem post_merge_agrees_add_hashtags (caption : Str) (tags : List Str)
    (h : tags ≠ []) :
    postFullCaption caption (some tags) = add_hashtags caption tags :=
  merge_eq_of_ne_nil caption tags h

/-- C8 witness: concrete agreement on caption `"c"` and tag list `["a"]`. -/
theorem post_merge_agrees_add_hashtags_witness :
    postFullCaption ("c".data) (some [("a".data)])
      = add_hashtags ("c".data) [("a".data)] :=
  post_merge_agrees_add_hashtags ("c".data) [("a".data)] (by decide)

/-- C10: `add_hashtags caption []` is not the caption unchanged — it is
`caption ++ "\n\n"` — while `post` given an empty hashtag list keeps the
caption unchanged; the two merge paths disagree exactly when the hashtag
list is empty. -/
theorem empty_hashtags_divergence (caption : Str) (tags : List Str) :
    add_hashtags caption [] = caption ++ ("\n\n".data)
      ∧ add_hashtags caption [] ≠ caption
      ∧ postFullCaption caption (some []) = caption
      ∧ (postFullCaption caption (some tags) ≠ add_hashtags caption tags
          ↔ tags = []) := by
  refine ⟨add_hashtags_nil caption, ?_, rfl, ?_, ?_⟩
  · rw [add_hashtags_nil caption]
    exact append_two_ne_self caption
  · intro hne
    by_contra htags
    exact hne (merge_eq_of_ne_nil caption tags htags)
  · intro htags
    subst htags
    show postFullCaption caption (some []) ≠ add_hashtags caption []
    rw [add_hashtags_nil caption]
    exact fun h => append_two_ne_self caption h.symm

/-! ### Scheduled workflow (main.py lines 139-165) -/

/-- Observable events of one `scheduled_workflow` run: a call of
`single_post_workflow` for iteration `i`, an error log for iteration `i`,
and a `time.sleep` of the given number of seconds. -/
inductive Event where
  | attempt (i : Nat)
  | errorLog (i : Nat)
  | sleepFor (seconds : Nat)
deriving DecidableEq

def isAttempt : Event → Bool
  | .attempt _ => true
  | _ => false

def isErrorLog : Event → Bool
  | .errorLog _ => true
  | _ => false

def isSleep : Event → Bool
  | .sleepFor _ => true
  | _ => false

/-- Events of loop iteration `i` of `scheduled_workflow`.  The `try` block
runs `single_post_workflow` and then, when `i < total - 1`, sleeps for
`post_frequency * 3600` seconds; an exception from `single_post_workflow`
jumps to the `except` handler (logging the error and continuing), so a
failing iteration also skips its sleep.  `outcome` is whether this
iteration's `single_post_workflow` succeeds. -/
def iterEvents (outcome : Bool) (i total_posts post_frequency : Nat) : List Event :=
  Event.attempt i ::
    (if outcome then
      (if i + 1 < total_posts then [Event.sleepFor (post_frequency * 3600)] else [])
    else [Event.errorLog i])

/-- `scheduled_workflow` (main.py lines 146-165): `for i in range(total_posts)`
running one guarded iteration each time; `outcomes i` tells whether
iteration `i`'s `single_post_workflow` succeeds. -/
def scheduled_workflow (outcomes : Nat → Bool) (total_posts post_frequency : Nat) :
    List Event :=
  (List.range total_posts).flatMap
    (fun i => iterEvents (outcomes i) i total_posts post_frequency)

def countAttempts (l : List Event) : Nat := l.countP isAttempt

def countErrors (l : List Event) : Nat := l.countP isErrorLog

def countSleeps (l : List Event) : Nat := l.countP isSleep

lemma countP_flatMap {α β : Type} (p : α → Bool) (f : β → List α) :
    ∀ l : List β, ((l.flatMap f).countP p) = (l.map fun b => (f b).countP p).sum := by
  intro l
  induction l with
  | nil => rfl
  | cons b bs ih => simp [List.flatMap_cons, List.countP_append, ih]

lemma sum_map_ite {β : Type} (q : β → Bool) (l : List β) :
    (l.map fun b => if q b then (1 : Nat) else 0).sum = l.countP q := by
  induction l with
  | nil => rfl
  | cons b bs ih =>
    by_cases hb : q b = true <;> simp [List.countP_cons, hb, ih, Nat.add_comm]

lemma iterEvents_countAttempts (outcome : Bool) (i total_posts post_frequency : Nat) :
    (iterEvents outcome i total_posts post_frequency).countP isAttempt = 1 := by
  cases outcome <;> by_cases h : i + 1 < total_posts <;>
    simp [iterEvents, h, List.countP_cons, isAttempt]

lemma iterEvents_countErrors (outcome : Bool) (i total_posts post_frequency : Nat) :
    (iterEvents outcome i total_posts post_frequency).countP isErrorLog
      = if outcome then 0 else 1 := by
  cases outcome <;> by_cases h : i + 1 < total_posts <;>
    simp [iterEvents, h, List.countP_cons, isErrorLog]

lemma iterEvents_countSleeps (outcome : Bool) (i total_posts post_frequency : Nat) :
    (iterEvents outcome i total_posts post_frequency).countP isSleep
      = if outcome && decide (i + 1 < total_posts) then 1 else 0 := by
  cases outcome <;> by_cases h : i + 1 < total_posts <;>
    simp [iterEvents, h, List.countP_cons, isSleep]

lemma scheduled_countAttempts (outcomes : Nat → Bool) (total_posts post_frequency : Nat) :
    countAttempts (scheduled_workflow outcomes total_posts post_frequency) = total_posts := by
  unfold countAttempts scheduled_workflow
  rw [countP_flatMap]
  have h1 : ((List.range total_posts).map
      (fun i => (iterEvents (outcomes i) i total_posts post_frequency).countP isAttempt))
      = (List.range total_posts).map (fun _ => 1) := by
    apply List.map_congr_left
    intro i _
    exact iterEvents_countAttempts (outcomes i) i total_posts post_frequency
  rw [h1]
  simp

lemma scheduled_countErrors (outcomes : Nat → Bool) (total_posts post_frequency : Nat) :
    countErrors (scheduled_workflow outcomes total_posts post_frequency)
      = (List.range total_posts).countP (fun i => !outcomes i) := by
  unfold countErrors scheduled_workflow
  rw [countP_flatMap]
  have h1 : ((List.range total_posts).map
      (fun i => (iterEvents (outcomes i) i total_posts post_frequency).countP isErrorLog))
      = (List.range total_posts).map (fun i => if !outcomes i then (1 : Nat) else 0) := by
    apply List.map_congr_left
    intro i _
    rw [iterEvents_countErrors]
    cases h : outcomes i <;> simp
  rw [h1, sum_map_ite]

lemma scheduled_countSleeps (outcomes : Nat → Bool) (total_posts post_frequency : Nat) :
    countSleeps (scheduled_workflow outcomes total_posts post_frequency)
      = (List.range total_posts).countP
          (fun i => outcomes i && decide (i + 1 < total_posts)) := by
  unfold countSleeps scheduled_workflow
  rw [countP_flatMap]
  have h1 : ((List.range total_posts).map
      (fun i => (iterEvents (outcomes i) i total_posts post_frequency).countP isSleep))
      = (List.range total_posts).map
          (fun i => if outcomes i && decide (i + 1 < total_posts) then (1 : Nat) else 0) := by
    apply List.map_congr_left
    intro i _
    exact iterEvents_countSleeps (outcomes i) i total_posts post_frequency
  rw [h1, sum_map_ite]

lemma sleep_amount_mem (outcomes : Nat → Bool) (total_posts post_frequency s : Nat)
    (h : Event.sleepFor s ∈ scheduled_workflow outcomes total_posts post_frequency) :
    s = post_frequency * 3600 := by
  unfold scheduled_workflow at h
  rw [List.mem_flatMap] at h
  obtain ⟨i, _, hmem⟩ := h
  unfold iterEvents at hmem
  rw [List.mem_cons] at hmem
  rcases hmem with h1 | h2
  · cases h1
  · cases houtcome : outcomes i <;> rw [houtcome] at h2
    · simp at h2
    · by_cases hi : i + 1 < total_posts
      · rw [if_pos hi] at h2
        simp at h2
        exact h2
      · rw [if_neg hi] at h2
        simp at h2

lemma countP_range_succ_lt (n : Nat) :
    (List.range n).countP (fun i => decide (i + 1 < n)) = n - 1 := by
  cases n with
  | zero => rfl
  | succ m =>
    rw [List.range_succ, List.countP_append]
    have h2 : ∀ a ∈ List.range m, (fun i => decide (i + 1 < m + 1)) a = true := by
      intro a ha
      rw [List.mem_range] at ha
      simpa using Nat.succ_lt_succ ha
    have h1 := List.countP_eq_length.mpr h2
    rw [h1, List.length_range]
    simp [List.countP_cons]

/-- C1: every one of the `total_posts` iterations of `scheduled_workflow`
attempts its single post; a failing iteration logs the error and the loop
continues, so the number of attempts equals `total_posts` and the number of
recorded errors equals the number of failing iterations. -/
theorem scheduled_continue_on_failure (outcomes : Nat → Bool)
    (total_posts post_frequency : Nat) (h : 1 ≤ total_posts) :
    countAttempts (scheduled_workflow outcomes total_posts post_frequency) = total_posts
      ∧ countErrors (scheduled_workflow outcomes total_posts post_frequency)
          = (List.range total_posts).countP (fun i => !outcomes i) :=
  ⟨scheduled_countAttempts outcomes total_posts post_frequency,
   scheduled_countErrors outcomes total_posts post_frequency⟩

/-- C1 witness: `total_posts = 3` with the 2nd iteration failing — exactly 3
attempts occur and exactly one error is recorded. -/
theorem scheduled_continue_on_failure_witness :
    countAttempts (scheduled_workflow (fun i => decide (i ≠ 1)) 3 1) = 3
      ∧ countErrors (scheduled_workflow (fun i => decide (i ≠ 1)) 3 1) = 1 :=
  ⟨(scheduled_continue_on_failure (fun i => decide (i ≠ 1)) 3 1 (by decide)).1,
   ((scheduled_continue_on_failure (fun i => decide (i ≠ 1)) 3 1 (by decide)).2).trans
     (by decide)⟩

/-- C2 counterexample: the claim says a scheduled run sleeps exactly
`total_posts - 1` times regardless of per-iteration failures; with
`total_posts = 3` and the 2nd iteration failing, the run sleeps only once
(the failing iteration's exception skips its sleep), not `3 - 1 = 2` times. -/
theorem scheduled_sleep_count_counterexample :
    countSleeps (scheduled_workflow (fun i => decide (i ≠ 1)) 3 1) ≠ 3 - 1 := by
  decide

/-- C2 (amended): each sleep of a scheduled run is for
`post_frequency * 3600` seconds and happens only in a SUCCESSFUL non-final
iteration: the number of sleeps equals the number of indices
`i < total_posts` with `outcomes i` true and `i + 1 < total_posts` (so never
after the final post); a failing iteration skips its sleep.  When every
iteration succeeds the run sleeps exactly `total_posts - 1` times. -/
theorem scheduled_sleep_only_after_success (outcomes : Nat → Bool)
    (total_posts post_frequency : Nat) (h : 1 ≤ total_posts) :
    countSleeps (scheduled_workflow outcomes total_posts post_frequency)
        = (List.range total_posts).countP
            (fun i => outcomes i && decide (i + 1 < total_posts))
      ∧ (∀ s : Nat,
          Event.sleepFor s ∈ scheduled_workflow outcomes total_posts post_frequency →
            s = post_frequency * 3600)
      ∧ ((∀ i, i < total_posts → outcomes i = true) →
          countSleeps (scheduled_workflow outcomes total_posts post_frequency)
            = total_posts - 1) := by
  refine ⟨scheduled_countSleeps outcomes total_posts post_frequency,
    fun s hs => sleep_amount_mem outcomes total_posts post_frequency s hs, ?_⟩
  intro hall
  rw [scheduled_countSleeps]
  have h1 : (List.range total_posts).countP
      (fun i => outcomes i && decide (i + 1 < total_posts))
      = (List.range total_posts).countP (fun i => decide (i + 1 < total_posts)) := by
    apply List.countP_congr
    intro a ha
    rw [List.mem_range] at ha
    rw [hall a ha]
    simp
  rw [h1, countP_range_succ_lt]

/-- C2 witness: three successful iterations at frequency 2 hours sleep
exactly twice, each sleep lasting `2 * 3600` seconds. -/
theorem scheduled_sleep_only_after_success_witness :
    countSleeps (scheduled_workflow (fun _ => true) 3 2) = 3 - 1 :=
  (scheduled_sleep_only_after_success (fun _ => true) 3 2 (by decide)).2.2
    (fun _ _ => rfl)

/-! ### Description generator (description_generator.py) -/

/-- The six opener phrases of `DescriptionGenerator.__init__`. -/
def openers : List Str :=
  [("✨ Check this out!".data),
   ("🔥 Just created something amazing!".data),
   ("💫 Excited to share this with you all!".data),
   ("🌈 New day, new creation!".data),
   ("🎨 Art in motion...".data),
   ("👀 Take a look at my latest work!".data)]

/-- The six closer phrases of `DescriptionGenerator.__init__`. -/
def closers : List Str :=
  [("What do you think?".data),
   ("Let me know your thoughts in the comments!".data),
   ("Double tap if you love it!".data),
   ("Share if this resonates with you!".data),
   ("Tag someone who needs to see this!".data),
   ("Save for inspiration later!".data)]

/-- `random.choice l` modelled by an arbitrary draw index reduced modulo the
list length. -/
def pick (l : List Str) (k : Nat) : Str :=
  l.getD (k % l.length) []

/-- `DescriptionGenerator._get_image_description` (lines 58-104): open the
image file (raises if `image_path` does not exist on filesystem `fs`),
base64-encode it, and call the vision backend; the whole body is wrapped in
`try/except`, and ANY failure returns the fixed fallback
`"An amazing image"`.  `claudeResp` is the vision call's outcome, covering
request errors and malformed responses (`message.content[0].text`). -/
def get_image_description (fs : Str → Bool) (image_path : Str)
    (claudeResp : Except Unit Str) : Str :=
  if fs image_path then
    match claudeResp with
    | .ok description => description
    | .error _ => ("An amazing image".data)
  else ("An amazing image".data)

/-- The `try` block of `DescriptionGenerator.generate_description` (lines
121-157): compute the image description (fallback phrase when no existing
path is supplied), draw an opener and a closer, format the template
(`fmtRes`, which may fail like Python `str.format`), call the text backend
(`claudeResp`, keyed by the formatted prompt; covers network errors and
malformed responses), and strip the response. -/
def dg_afterFormat (claudeResp : Str → Except Unit Str) :
    Except Unit Str → Except Unit Str
  | .error e => .error e
  | .ok formatted_prompt =>
    match claudeResp formatted_prompt with
    | .error e => .error e
    | .ok response => .ok (stripWS response)

def dg_tryBody (prompt : Str) (fs : Str → Bool) (image_path : Option Str)
    (i j : Nat) (visionResp : Except Unit Str)
    (fmtRes : Str → Str → Str → Str → Except Unit Str)
    (claudeResp : Str → Except Unit Str) : Except Unit Str :=
  let image_desc : Str :=
    match image_path with
    | some p =>
      if fs p then get_image_description fs p visionResp
      else ("an amazing image".data)
    | none => ("an amazing image".data)
  let opener := pick openers i
  let closer := pick closers j
  dg_afterFormat claudeResp (fmtRes prompt image_desc opener closer)

lemma dg_afterFormat_error_all (claudeResp : Str → Except Unit Str)
    (hc : ∀ s, claudeResp s = .error ()) (x : Except Unit Str) :
    dg_afterFormat claudeResp x = .error () := by
  cases x with
  | error e => cases e; rfl
  | ok fp => simp [dg_afterFormat, hc fp]

/-- `DescriptionGenerator.generate_description` (lines 106-162): the `try`
block's value on success; on ANY exception the `except` handler returns the
locally synthesized fallback
`f"{random.choice(self.openers)} {prompt} {random.choice(self.closers)}"`
(fresh draws `fi`, `fj`). -/
def generate_description (prompt : Str) (fs : Str → Bool) (image_path : Option Str)
    (i j fi fj : Nat) (visionResp : Except Unit Str)
    (fmtRes : Str → Str → Str → Str → Except Unit Str)
    (claudeResp : Str → Except Unit Str) : Str :=
  match dg_tryBody prompt fs image_path i j visionResp fmtRes claudeResp with
  | .ok description => description
  | .error _ =>
    pick openers fi ++ (" ".data) ++ prompt ++ (" ".data) ++ pick closers fj

lemma startsWith_append_self : ∀ (n b : Str), startsWith n (n ++ b) = true := by
  intro n
  induction n with
  | nil => intro b; rfl
  | cons a as ih => intro b; simp [startsWith, ih b]

lemma containsStr_nil_needle : ∀ hay : Str, containsStr [] hay = true := by
  intro hay
  induction hay with
  | nil => rfl
  | cons c rest ih => simp [containsStr, startsWith]

lemma containsStr_append_mid : ∀ (a n b : Str), containsStr n (a ++ n ++ b) = true := by
  intro a
  induction a with
  | nil =>
    intro n b
    cases n with
    | nil => simpa using containsStr_nil_needle b
    | cons x xs =>
      simp only [List.nil_append, List.cons_append, containsStr, List.append_eq]
      have h1 := startsWith_append_self (x :: xs) b
      simp only [List.cons_append] at h1
      rw [h1]
      simp
  | cons c cs ih =>
    intro n b
    simp only [List.cons_append, containsStr, List.append_eq]
    rw [ih n b]
    simp

/-- C6: `_get_image_description` is total (never raises) and on any failure —
the file missing from the filesystem, a request error, or a malformed
response (both folded into `claudeResp = .error ()`) — returns the fixed
fallback `"An amazing image"`. -/
theorem get_image_description_never_raises (fs : Str → Bool) (image_path : Str)
    (claudeResp : Except Unit Str)
    (h : fs image_path = false ∨ claudeResp = .error ()) :
    get_image_description fs image_path claudeResp = ("An amazing image".data) := by
  rcases h with hfs | hresp
  · simp [get_image_description, hfs]
  · by_cases hfs : fs image_path = true <;>
      simp [get_image_description, hfs, hresp]

/-- C6 witness: a nonexistent path yields the fixed fallback text. -/
theorem get_image_description_never_raises_witness :
    get_image_description (fun _ => false) ("missing.png".data) (.ok ("desc".data))
      = ("An amazing image".data) :=
  get_image_description_never_raises (fun _ => false) ("missing.png".data)
    (.ok ("desc".data)) (Or.inl rfl)

/-- C3: `generate_description` is total (never raises); whenever any pipeline
step errors — template formatting (`fmtRes`) or the text backend
(`claudeResp`) failing on every call — it returns the locally synthesized
fallback `"{randomOpener} {prompt} {randomCloser}"`, which is a non-empty
string containing the literal prompt text. -/
theorem generate_description_fallback (prompt : Str) (fs : Str → Bool)
    (image_path : Option Str) (i j fi fj : Nat) (visionResp : Except Unit Str)
    (fmtRes : Str → Str → Str → Str → Except Unit Str)
    (claudeResp : Str → Except Unit Str)
    (h : (∀ a b c d, fmtRes a b c d = .error ()) ∨ (∀ s, claudeResp s = .error ())) :
    generate_description prompt fs image_path i j fi fj visionResp fmtRes claudeResp
        = pick openers fi ++ (" ".data) ++ prompt ++ (" ".data) ++ pick closers fj
      ∧ generate_description prompt fs image_path i j fi fj visionResp fmtRes claudeResp
          ≠ []
      ∧ containsStr prompt
          (generate_description prompt fs image_path i j fi fj visionResp fmtRes
            claudeResp) = true := by
  have hbody : dg_tryBody prompt fs image_path i j visionResp fmtRes claudeResp
      = .error () := by
    unfold dg_tryBody
    rcases h with hf | hc
    · simp only [hf]
      rfl
    · exact dg_afterFormat_error_all claudeResp hc _
  refine ⟨?_, ?_, ?_⟩
  · unfold generate_description
    rw [hbody]
  · unfold generate_description
    rw [hbody]
    intro hcontra
    have hlen := congrArg List.length hcontra
    simp [List.length_append] at hlen
  · unfold generate_description
    rw [hbody]
    rw [List.append_assoc (pick openers fi ++ (" ".data) ++ prompt) (" ".data)
      (pick closers fj)]
    exact containsStr_append_mid (pick openers fi ++ (" ".data)) prompt
      ((" ".data) ++ pick closers fj)

/-- C3 witness: with the text backend failing on every call, the result is
non-empty and contains the literal prompt `"sunset"`. -/
theorem generate_description_fallback_witness :
    generate_description ("sunset".data) (fun _ => false) none 0 0 0 0 (.error ())
        (fun _ _ _ _ => .ok ("x".data)) (fun _ => .error ()) ≠ []
      ∧ containsStr ("sunset".data)
          (generate_description ("sunset".data) (fun _ => false) none 0 0 0 0
            (.error ()) (fun _ _ _ _ => .ok ("x".data)) (fun _ => .error ()))
          = true :=
  ⟨(generate_description_fallback ("sunset".data) (fun _ => false) none 0 0 0 0
      (.error ()) (fun _ _ _ _ => .ok ("x".data)) (fun _ => .error ())
      (Or.inr fun _ => rfl)).2.1,
   (generate_description_fallback ("sunset".data) (fun _ => false) none 0 0 0 0
      (.error ()) (fun _ _ _ _ => .ok ("x".data)) (fun _ => .error ())
      (Or.inr fun _ => rfl)).2.2⟩

/-! ### Image generator (image_generator.py lines 38-98) -/

/-- The JSON payload `ImageGenerator.generate_image` sends to the backend
(`inputs` plus the `parameters` object). -/
structure ImagePayload where
  inputs : Str
  width : Nat
  height : Nat
  num_inference_steps : Nat
  guidance_scale : ℚ
  negative_prompt : Str
deriving DecidableEq

/-- Prompt-enhancement and payload construction of
`ImageGenerator.generate_image` (lines 52-71):
`if self.style.lower() not in prompt.lower(): full_prompt = f"{prompt}, {self.style}"`
else the prompt is used unchanged; fixed parameters 50 inference steps,
guidance 7.5, and the fixed negative prompt. -/
def generate_image_payload (style prompt : Str) (width height : Nat) : ImagePayload :=
  let full_prompt :=
    if containsStr (toLowerStr style) (toLowerStr prompt) then prompt
    else prompt ++ (", ".data) ++ style
  { inputs := full_prompt
    width := width
    height := height
    num_inference_steps := 50
    guidance_scale := 15 / 2
    negative_prompt := ("low quality, blurry, distorted".data) }

/-- C7: when the lowercased prompt does not contain the lowercased configured
style, the request payload's prompt is `prompt ++ ", " ++ style`; when it
already contains the style case-insensitively, the payload's prompt is the
prompt unchanged. -/
theorem generate_image_style_suffix (style prompt : Str) (width height : Nat) :
    (containsStr (toLowerStr style) (toLowerStr prompt) = false →
        (generate_image_payload style prompt width height).inputs
          = prompt ++ (", ".data) ++ style)
      ∧ (containsStr (toLowerStr style) (toLowerStr prompt) = true →
          (generate_image_payload style prompt width height).inputs = prompt) := by
  constructor <;> intro hc <;> simp [generate_image_payload, hc]

/-- C7 witness: `"A cat"` gains the `", digital art"` suffix, while
`"A cat, DIGITAL ART"` already contains the style case-insensitively and is
sent unchanged. -/
theorem generate_image_style_suffix_witness :
    (generate_image_payload ("digital art".data) ("A cat".data) 1024 1024).inputs
        = ("A cat, digital art".data)
      ∧ (generate_image_payload ("digital art".data) ("A cat, DIGITAL ART".data)
          1024 1024).inputs = ("A cat, DIGITAL ART".data) :=
  ⟨((generate_image_style_suffix ("digital art".data) ("A cat".data) 1024 1024).1
      (by decide)).trans (by decide),
   (generate_image_style_suffix ("digital art".data) ("A cat, DIGITAL ART".data)
      1024 1024).2 (by decide)⟩

/-! ### Instagram poster (instagram_poster.py lines 36-148) -/

/-- The network requests `InstagramPoster.post` can issue, in order:
the container-creation POST (`/{user_id}/media`) and the publish POST
(`/{user_id}/media_publish` referencing `creation_id`). -/
inductive Req where
  | createContainer (image_url : Str) (caption : Str)
  | publishContainer (creation_id : Str)
deriving DecidableEq

def isCreateReq : Req → Bool
  | .createContainer _ _ => true
  | _ => false

def isPublishReq : Req → Bool
  | .publishContainer _ => true
  | _ => false

/-- `os.path.basename`: the part of the path after the last `'/'`. -/
def basename (p : Str) : Str :=
  (p.reverse.takeWhile (fun c => !(c == '/'))).reverse

/-- `InstagramPoster._upload_image_to_temporary_storage` (lines 150-172): a
placeholder that performs no network call and returns a synthetic URL. -/
def upload_image_to_temporary_storage (image_path : Str) : Str :=
  ("https://example.com/temp_images/".data) ++ basename image_path

/-- `InstagramPoster.post` (lines 36-75) with `_create_media_container`
(lines 77-117) and `_publish_container` (lines 119-148) inlined, returning
the run's outcome together with the trace of issued network requests.
`createResp` is the container-creation response: `.error ()` a non-200
status, `.ok none` a 200 response lacking the `id` field, `.ok (some cid)`
success with container id `cid`.  `publishResp cid` is the publish
response.  The existence check precedes everything; the caption merge and
URL synthesis involve no network traffic. -/
def post (fs : Str → Bool) (image_path caption : Str) (hashtags : Option (List Str))
    (createResp : Except Unit (Option Str)) (publishResp : Str → Except Unit Str) :
    Except Unit Str × List Req :=
  if fs image_path then
    let full_caption := postFullCaption caption hashtags
    let image_url := upload_image_to_temporary_storage image_path
    match createResp with
    | .error _ => (.error (), [Req.createContainer image_url full_caption])
    | .ok none => (.error (), [Req.createContainer image_url full_caption])
    | .ok (some container_id) =>
      match publishResp container_id with
      | .error _ =>
        (.error (), [Req.createContainer image_url full_caption,
                     Req.publishContainer container_id])
      | .ok result =>
        (.ok result, [Req.createContainer image_url full_caption,
                      Req.publishContainer container_id])
  else (.error (), [])

/-- C5: calling `post` on a path missing from the filesystem fails
immediately with the file-not-found error and issues no network request at
all (empty request trace). -/
theorem post_missing_file_no_network (fs : Str → Bool) (image_path caption : Str)
    (hashtags : Option (List Str)) (createResp : Except Unit (Option Str))
    (publishResp : Str → Except Unit Str) (h : fs image_path = false) :
    post fs image_path caption hashtags createResp publishResp = (.error (), []) := by
  simp [post, h]

/-- C5 witness: a concrete run on an empty filesystem issues nothing. -/
theorem post_missing_file_no_network_witness :
    post (fun _ => false) ("img.png".data) ("cap".data) none
        (.ok (some ("17".data))) (fun _ => .ok ("42".data))
      = (.error (), []) :=
  post_missing_file_no_network (fun _ => false) ("img.png".data) ("cap".data) none
    (.ok (some ("17".data))) (fun _ => .ok ("42".data)) rfl

lemma post_publish_mem (fs : Str → Bool) (image_path caption : Str)
    (hashtags : Option (List Str)) (createResp : Except Unit (Option Str))
    (publishResp : Str → Except Unit Str) (cid : Str)
    (hmem : Req.publishContainer cid
      ∈ (post fs image_path caption hashtags createResp publishResp).2) :
    createResp = .ok (some cid) := by
  by_cases hfs : fs image_path = true
  · rcases createResp with e | o
    · simp [post, hfs] at hmem
    · rcases o with _ | c
      · simp [post, hfs] at hmem
      · rcases hp : publishResp c with e | r <;>
          simp [post, hfs, hp] at hmem <;> subst hmem <;> rfl
  · simp [post, hfs] at hmem

lemma post_create_count (fs : Str → Bool) (image_path caption : Str)
    (hashtags : Option (List Str)) (createResp : Except Unit (Option Str))
    (publishResp : Str → Except Unit Str) (h : fs image_path = true) :
    (post fs image_path caption hashtags createResp publishResp).2.countP isCreateReq
      = 1 := by
  rcases createResp with e | o
  · simp [post, h, List.countP_cons, isCreateReq]
  · rcases o with _ | c
    · simp [post, h, List.countP_cons, isCreateReq]
    · rcases hp : publishResp c with e | r <;>
        simp [post, h, hp, List.countP_cons, isCreateReq]

lemma post_publish_count_le (fs : Str → Bool) (image_path caption : Str)
    (hashtags : Option (List Str)) (createResp : Except Unit (Option Str))
    (publishResp : Str → Except Unit Str) :
    (post fs image_path caption hashtags createResp publishResp).2.countP isPublishReq
      ≤ 1 := by
  by_cases hfs : fs image_path = true
  · rcases createResp with e | o
    · simp [post, hfs, List.countP_cons, isPublishReq]
    · rcases o with _ | c
      · simp [post, hfs, List.countP_cons, isPublishReq]
      · rcases hp : publishResp c with e | r <;>
          simp [post, hfs, hp, List.countP_cons, isPublishReq]
  · simp [post, hfs]

lemma post_publish_count_zero (fs : Str → Bool) (image_path caption : Str)
    (hashtags : Option (List Str)) (createResp : Except Unit (Option Str))
    (publishResp : Str → Except Unit Str)
    (h : createResp = .error () ∨ createResp = .ok none) :
    (post fs image_path caption hashtags createResp publishResp).2.countP isPublishReq
      = 0 := by
  by_cases hfs : fs image_path = true
  · rcases h with h | h <;> subst h <;>
      simp [post, hfs, List.countP_cons, isPublishReq]
  · simp [post, hfs]

/-- C9: a `post` run on an existing file issues exactly one container-creation
request and at most one publish request; any publish request references
exactly the container id returned by that run's creation response; a failed
creation (non-200 or missing id) means no publish request is issued; and two
runs whose creation responses differ never publish the same container id
(each run's publish is tied to its own creation response, so backend-fresh
ids are never reused across runs). -/
theorem post_container_once_invariant (fs : Str → Bool) (image_path caption : Str)
    (hashtags : Option (List Str)) (createResp : Except Unit (Option Str))
    (publishResp : Str → Except Unit Str) (fs2 : Str → Bool)
    (image_path2 caption2 : Str) (hashtags2 : Option (List Str))
    (createResp2 : Except Unit (Option Str)) (publishResp2 : Str → Except Unit Str)
    (h : fs image_path = true) :
    ((post fs image_path caption hashtags createResp publishResp).2.countP isCreateReq
        = 1)
      ∧ ((post fs image_path caption hashtags createResp publishResp).2.countP
          isPublishReq ≤ 1)
      ∧ (∀ cid : Str, Req.publishContainer cid
            ∈ (post fs image_path caption hashtags createResp publishResp).2 →
          createResp = .ok (some cid))
      ∧ (createResp = .error () ∨ createResp = .ok none →
          (post fs image_path caption hashtags createResp publishResp).2.countP
            isPublishReq = 0)
      ∧ (∀ cid cid2 : Str, Req.publishContainer cid
            ∈ (post fs image_path caption hashtags createResp publishResp).2 →
          Req.publishContainer cid2
            ∈ (post fs2 image_path2 caption2 hashtags2 createResp2 publishResp2).2 →
          createResp ≠ createResp2 → cid ≠ cid2) := by
  refine ⟨post_create_count fs image_path caption hashtags createResp publishResp h,
    post_publish_count_le fs image_path caption hashtags createResp publishResp,
    fun cid hmem =>
      post_publish_mem fs image_path caption hashtags createResp publishResp cid hmem,
    post_publish_count_zero fs image_path caption hashtags createResp publishResp,
    ?_⟩
  intro cid cid2 h1 h2 hneq heq
  have e1 := post_publish_mem fs image_path caption hashtags createResp publishResp
    cid h1
  have e2 := post_publish_mem fs2 image_path2 caption2 hashtags2 createResp2
    publishResp2 cid2 h2
  subst heq
  exact hneq (e1.trans e2.symm)

/-- C9 witness: a concrete successful run issues one creation request and one
publish request. -/
theorem post_container_once_invariant_witness :
    ((post (fun _ => true) ("a.png".data) ("cap".data) none
        (.ok (some ("111".data))) (fun _ => .ok ("pid".data))).2.countP isCreateReq
        = 1)
      ∧ ((post (fun _ => true) ("a.png".data) ("cap".data) none
          (.ok (some ("111".data))) (fun _ => .ok ("pid".data))).2.countP
          isPublishReq ≤ 1) :=
  ⟨(post_container_once_invariant (fun _ => true) ("a.png".data) ("cap".data) none
      (.ok (some ("111".data))) (fun _ => .ok ("pid".data)) (fun _ => true)
      ("b.png".data) ("cap2".data) none (.ok (some ("222".data)))
      (fun _ => .ok ("pid2".data)) rfl).1,
   (post_container_once_invariant (fun _ => true) ("a.png".data) ("cap".data) none
      (.ok (some ("111".data))) (fun _ => .ok ("pid".data)) (fun _ => true)
      ("b.png".data) ("cap2".data) none (.ok (some ("222".data)))
      (fun _ => .ok ("pid2".data)) rfl).2.1⟩

end InstaAuto
